import Mathlib

/-!
Shallow embedding of the ShadowLynx_Ultra arbitrage core
(`src/core/flash_loan.py` and `src/core/reinvestment.py`) in Lean 4,
with theorems settling the specification claims about it.

Python floats are modelled as rationals (`ℚ`); Python dictionaries with
optional keys are modelled as structures with `Option` fields; Python's
`float('inf')` sentinel inside `determine_loan_amount` is modelled by an
`Option ℚ` (with `none` playing the role of `+∞`).  Python's built-in
`min`, `max` and `abs` are modelled by the conditional expressions `pymin`,
`pymax` and `pyabs`, which agree with Mathlib's `min`, `max` and `|·|` on
`ℚ` (bridge lemmas below).
-/

namespace ShadowLynx

/-- Python's two-argument `min` on floats: the first argument when the two
compare equal. -/
def pymin (a b : ℚ) : ℚ := if a ≤ b then a else b

/-- Python's two-argument `max` on floats: the first argument when the two
compare equal. -/
def pymax (a b : ℚ) : ℚ := if b ≤ a then a else b

/-- Python's `abs` on floats. -/
def pyabs (a : ℚ) : ℚ := if a < 0 then -a else a

/-- A price entry produced by the price aggregator: the dictionaries consumed
by `FlashLoanOrchestrator.identify_arbitrage_opportunities`.  The `liquidity`
key is optional in the source (`dex.get('liquidity', float('inf'))`). -/
structure Quote where
  token_pair : String
  dex_name : String
  network : String
  price : ℚ
  liquidity : Option ℚ
  deriving DecidableEq, Repr

/-- An arbitrage opportunity dictionary as built in
`identify_arbitrage_opportunities` (flash_loan.py lines 151-161).  The keys
`ai_confidence` and `loan_amount` are absent from the detector's output and
may be attached later by the prediction engine; they are `Option` fields. -/
structure Opp where
  token_pair : String
  buy_dex : String
  sell_dex : String
  buy_price : ℚ
  sell_price : ℚ
  price_diff_pct : ℚ
  estimated_profit_usd : ℚ
  network : String
  timestamp : ℚ
  ai_confidence : Option ℚ
  loan_amount : Option ℚ
  deriving DecidableEq, Repr

/-- Configuration surface of `FlashLoanOrchestrator`: environment variables
and `config.get('preferred_flash_loan_provider', 'AAVE')`. -/
structure Config where
  preferred_flash_loan_provider : String
  min_loan : ℚ
  max_loan : ℚ
  minimum_profit_threshold : ℚ
  ai_confidence_threshold : ℚ
  deriving DecidableEq, Repr

/-- The defaults hard-coded in the source: provider AAVE, loan bounds
1000/50000 USD, minimum profit 10 USD, AI confidence threshold 0.6. -/
def defaultConfig : Config :=
  { preferred_flash_loan_provider := "AAVE"
    min_loan := 1000
    max_loan := 50000
    minimum_profit_threshold := 10
    ai_confidence_threshold := 6/10 }

/-- Python's `str.upper()` restricted to the ASCII names used by the code:
upper-case every character of the string. -/
def toUpperStr (s : String) : String := String.mk (s.data.map Char.toUpper)

/-- Embedding of `FlashLoanOrchestrator.determine_loan_amount` (flash_loan.py 195-217).
`liquidity_limit = min(buy.get('liquidity', inf), sell.get('liquidity', inf)) * 0.01`,
then `max(min_loan, min(liquidity_limit, max_loan))`.  `none` models the
`float('inf')` default: `min(inf, x) = x` and `min(inf, inf) * 0.01 = inf`,
and `min(inf, max_loan) = max_loan`. -/
def determine_loan_amount (cfg : Config) (buyLiq sellLiq : Option ℚ) : ℚ :=
  let liquidity_limit : Option ℚ :=
    match buyLiq, sellLiq with
    | some b, some s => some (pymin b s * (1/100))
    | some b, none => some (b * (1/100))
    | none, some s => some (s * (1/100))
    | none, none => none
  match liquidity_limit with
  | some l => pymax cfg.min_loan (pymin l cfg.max_loan)
  | none => pymax cfg.min_loan cfg.max_loan

/-- Embedding of `FlashLoanOrchestrator.estimate_flash_loan_fee` (flash_loan.py 219-247):
provider-specific basis-point rates, default 0.1%. -/
def estimate_flash_loan_fee (cfg : Config) (loan_amount : ℚ) : ℚ :=
  if cfg.preferred_flash_loan_provider = "AAVE" then loan_amount * (9/10000)
  else if cfg.preferred_flash_loan_provider = "DYDX" then 0
  else if cfg.preferred_flash_loan_provider = "DODO" then loan_amount * (1/1000)
  else if cfg.preferred_flash_loan_provider = "UNISWAP_V3" then loan_amount * (5/10000)
  else loan_amount * (1/1000)

/-- The per-DEX fee-rate table of `estimate_dex_fees` (flash_loan.py 262-277),
looked up on the upper-cased DEX name with default 0.3%. -/
def dex_fee_rate (name : String) : ℚ :=
  let n := toUpperStr name
  if n = "PANCAKESWAP" then 25/10000
  else if n = "SUSHISWAP" then 3/1000
  else if n = "UNISWAP" then 3/1000
  else if n = "QUICKSWAP" then 3/1000
  else if n = "APESWAP" then 3/1000
  else if n = "1INCH" then 3/1000
  else if n = "DODO" then 1/1000
  else if n = "CURVE" then 4/10000
  else if n = "BALANCER" then 2/1000
  else if n = "KYBERSWAP" then 3/1000
  else 3/1000

/-- Embedding of `FlashLoanOrchestrator.estimate_dex_fees` (flash_loan.py 249-283). -/
def estimate_dex_fees (loan_amount : ℚ) (buy_dex sell_dex : String) : ℚ :=
  loan_amount * dex_fee_rate buy_dex + loan_amount * dex_fee_rate sell_dex

/-- Embedding of `FlashLoanOrchestrator.estimate_gas_cost` (flash_loan.py 285-308):
BSC: 500000 gas × 5 Gwei × $300 BNB; Polygon: 800000 × 30 Gwei × $1 MATIC;
otherwise a flat $10. -/
def estimate_gas_cost (network : String) : ℚ :=
  if toUpperStr network = "BSC" then
    (500000 * 5 * (1/1000000000)) * 300
  else if toUpperStr network = "POLYGON" then
    (800000 * 30 * (1/1000000000)) * 1
  else 10

/-- Embedding of `FlashLoanOrchestrator.calculate_estimated_profit` (flash_loan.py 165-193):
gross profit on the sized loan minus flash-loan fee, both DEX legs' fees and
the network gas cost. -/
def calculate_estimated_profit (cfg : Config) (buy_dex sell_dex : Quote)
    (price_diff_pct : ℚ) : ℚ :=
  let loan_amount := determine_loan_amount cfg buy_dex.liquidity sell_dex.liquidity
  let gross_profit := loan_amount * (price_diff_pct / 100)
  let flash_loan_fee := estimate_flash_loan_fee cfg loan_amount
  let dex_fees := estimate_dex_fees loan_amount buy_dex.dex_name sell_dex.dex_name
  let gas_cost := estimate_gas_cost buy_dex.network
  gross_profit - flash_loan_fee - dex_fees - gas_cost

/-- One iteration of the inner comparison of
`identify_arbitrage_opportunities` (flash_loan.py 124-161): skip if either
price is ≤ 0, compute `abs((target - source)/source) * 100`, orient buy/sell
by price, estimate profit, and emit the opportunity only when it is > 0.
`now` stands for `time.time()`. -/
def mkOpp (cfg : Config) (now : ℚ) (token_pair : String)
    (source_dex target_dex : Quote) : Option Opp :=
  if source_dex.price ≤ 0 ∨ target_dex.price ≤ 0 then none
  else
    let price_diff_pct := pyabs ((target_dex.price - source_dex.price) / source_dex.price) * 100
    let buy_dex := if source_dex.price < target_dex.price then source_dex else target_dex
    let sell_dex := if source_dex.price < target_dex.price then target_dex else source_dex
    let estimated_profit := calculate_estimated_profit cfg buy_dex sell_dex price_diff_pct
    if 0 < estimated_profit then
      some { token_pair := token_pair
             buy_dex := buy_dex.dex_name
             sell_dex := sell_dex.dex_name
             buy_price := pymin source_dex.price target_dex.price
             sell_price := pymax source_dex.price target_dex.price
             price_diff_pct := price_diff_pct
             estimated_profit_usd := estimated_profit
             network := buy_dex.network
             timestamp := now
             ai_confidence := none
             loan_amount := none }
    else none

/-- The double loop `for i, source_dex in enumerate(prices): for target_dex
in prices[i+1:]` (flash_loan.py 124-125): every unordered pair once, in
order. -/
def comparePairs (cfg : Config) (now : ℚ) (token_pair : String) :
    List Quote → List Opp
  | [] => []
  | source_dex :: rest =>
    rest.filterMap (fun target_dex => mkOpp cfg now token_pair source_dex target_dex)
      ++ comparePairs cfg now token_pair rest

/-- One step of the grouping loop (flash_loan.py 112-116): Python dicts keep
insertion order, and a new price entry is appended to its pair's list. -/
def insertQuote (acc : List (String × List Quote)) (q : Quote) :
    List (String × List Quote) :=
  match acc with
  | [] => [(q.token_pair, [q])]
  | (k, qs) :: rest =>
    if k = q.token_pair then (k, qs ++ [q]) :: rest
    else (k, qs) :: insertQuote rest q

/-- The `token_pairs` grouping dictionary of
`identify_arbitrage_opportunities` (flash_loan.py 110-116). -/
def groupByPair (price_data : List Quote) : List (String × List Quote) :=
  price_data.foldl insertQuote []

/-- Embedding of `FlashLoanOrchestrator.identify_arbitrage_opportunities`
(flash_loan.py 98-163): group by token pair, skip pairs with fewer than two
quotes, and compare every pair of quotes. -/
def identify_arbitrage_opportunities (cfg : Config) (now : ℚ)
    (price_data : List Quote) : List Opp :=
  (groupByPair price_data).flatMap fun g =>
    if g.2.length < 2 then [] else comparePairs cfg now g.1 g.2

/-- The Boolean comparison handed to the sort in `filter_opportunities`
(flash_loan.py 334-338): `sort(key=profit, reverse=True)` sorts by
descending estimated profit. -/
def profitDescLe (a b : Opp) : Bool :=
  decide (b.estimated_profit_usd ≤ a.estimated_profit_usd)

/-- The profit-threshold filter of `filter_opportunities`
(flash_loan.py 321-324): `op['estimated_profit_usd'] >= minimum_profit_threshold`. -/
def viableOpportunities (cfg : Config) (opportunities : List Opp) : List Opp :=
  opportunities.filter
    (fun op => cfg.minimum_profit_threshold ≤ op.estimated_profit_usd)

/-- The AI-confidence filter of `filter_opportunities` (flash_loan.py
327-332): applied only when the list is non-empty and its first element
carries an `ai_confidence` key, using `op.get('ai_confidence', 0)`. -/
def confidenceFiltered (cfg : Config) (viable : List Opp) : List Opp :=
  match viable with
  | [] => []
  | op0 :: rest =>
    if op0.ai_confidence.isSome then
      (op0 :: rest).filter
        (fun op => cfg.ai_confidence_threshold ≤ op.ai_confidence.getD 0)
    else op0 :: rest

/-- Embedding of `FlashLoanOrchestrator.filter_opportunities` (flash_loan.py 310-340):
keep opportunities at or above the minimum profit threshold; if the first
survivor carries an `ai_confidence` key, additionally require confidence at
or above the AI threshold; sort by descending profit (`sort(key=profit,
reverse=True)`). -/
def filter_opportunities (cfg : Config) (opportunities : List Opp) : List Opp :=
  (confidenceFiltered cfg (viableOpportunities cfg opportunities)).mergeSort profitDescLe

/-- The dispatch slice of `opportunity_loop` (flash_loan.py 88):
`viable_opportunities[:5]`, the list of opportunities actually executed in
one cycle. -/
def dispatchedOpportunities (cfg : Config) (opportunities : List Opp) : List Opp :=
  (filter_opportunities cfg opportunities).take 5

/-- The loan-amount resolution of `execute_opportunity`
(flash_loan.py 356-361): use the opportunity's `loan_amount` key if present,
else recompute from dictionaries holding only the DEX names (hence no
`liquidity` key on either side). -/
def resolveLoanAmount (cfg : Config) (opportunity : Opp) : ℚ :=
  opportunity.loan_amount.getD (determine_loan_amount cfg none none)

/-- One entry of `ReinvestmentModule.profit_history`
(reinvestment.py 94-97): `{'amount': ..., 'timestamp': ...}`. -/
structure ProfitEntry where
  amount : ℚ
  timestamp : ℚ
  deriving DecidableEq, Repr

/-- The mutable state of `ReinvestmentModule` (reinvestment.py 26-42):
capital tracking plus the allocation/risk settings loaded from the
environment. -/
structure ReinvState where
  initial_capital : ℚ
  current_capital : ℚ
  total_profit : ℚ
  profit_history : List ProfitEntry
  max_allocation_percent : ℚ
  min_reserve_percent : ℚ
  max_pool_impact_percent : ℚ
  max_allocation_per_trade : ℚ
  allocation_increase_threshold : ℚ
  deriving DecidableEq, Repr

/-- The environment-variable defaults of `ReinvestmentModule.__init__`:
initial capital 1000, allocation 80%, reserve 20%, pool impact 2%,
per-trade cap 25%, increase threshold 5%. -/
def defaultReinvState : ReinvState :=
  { initial_capital := 1000
    current_capital := 1000
    total_profit := 0
    profit_history := []
    max_allocation_percent := 80
    min_reserve_percent := 20
    max_pool_impact_percent := 2
    max_allocation_per_trade := 25
    allocation_increase_threshold := 5 }

/-- The `recent_profits` local of `ReinvestmentModule.adjust_allocations`
(reinvestment.py 114): `sum(entry['amount'] for entry in self.profit_history[-50:])`. -/
def recentProfits (s : ReinvState) : ℚ :=
  ((s.profit_history.drop (s.profit_history.length - 50)).map ProfitEntry.amount).sum

/-- The `roi_percent` local of `ReinvestmentModule.adjust_allocations`
(reinvestment.py 115):
`(recent_profits / max(1.0, current_capital - recent_profits)) * 100`. -/
def roiPercent (s : ReinvState) : ℚ :=
  recentProfits s / pymax 1 (s.current_capital - recentProfits s) * 100

/-- Embedding of `ReinvestmentModule.adjust_allocations` (reinvestment.py 111-135):
rolling profit over the last 50 history entries, ROI against the capital
before those profits, then scale `max_allocation_per_trade` up (capped at
50) when ROI exceeds the increase threshold, or by 0.8 (floored at 5) when
ROI is negative. -/
def adjust_allocations (s : ReinvState) : ReinvState :=
  if s.allocation_increase_threshold < roiPercent s then
    { s with max_allocation_per_trade :=
        pymin 50 (s.max_allocation_per_trade * (1 + roiPercent s / 100)) }
  else if roiPercent s < 0 then
    { s with max_allocation_per_trade := pymax 5 (s.max_allocation_per_trade * (8/10)) }
  else s

/-- The profit-recording step of `ReinvestmentModule.update_capital`
(reinvestment.py 89-97): add the profit to `total_profit` and
`current_capital` and append a history entry. -/
def recordProfit (s : ReinvState) (profit_amount now : ℚ) : ReinvState :=
  { s with
    total_profit := s.total_profit + profit_amount
    current_capital := s.current_capital + profit_amount
    profit_history := s.profit_history ++ [⟨profit_amount, now⟩] }

/-- The history-trimming step of `ReinvestmentModule.update_capital`
(reinvestment.py 99-101): keep only the last 1000 entries
(`profit_history[-1000:]`) when the history exceeds 1000 entries. -/
def trimHistory (s : ReinvState) : ReinvState :=
  if 1000 < s.profit_history.length then
    { s with profit_history := s.profit_history.drop (s.profit_history.length - 1000) }
  else s

/-- Embedding of `ReinvestmentModule.update_capital` (reinvestment.py 79-109): early
return when the profit is not positive; otherwise record the profit, trim
the history, and adjust allocations.  `now` stands for `time.time()`; the
`save_state` side effect is modelled separately (see `save_state`). -/
def update_capital (s : ReinvState) (profit_amount : ℚ) (now : ℚ) : ReinvState :=
  if profit_amount ≤ 0 then s
  else adjust_allocations (trimHistory (recordProfit s profit_amount now))

/-- The JSON dictionary written by `ReinvestmentModule.save_state`
(reinvestment.py 61-77). -/
structure SavedState where
  current_capital : ℚ
  total_profit : ℚ
  profit_history : List ProfitEntry
  last_updated : ℚ
  deriving DecidableEq, Repr

/-- Embedding of `ReinvestmentModule.save_state` (reinvestment.py 61-77) with the file
write abstracted: the state dictionary that is persisted. -/
def save_state (s : ReinvState) (now : ℚ) : SavedState :=
  { current_capital := s.current_capital
    total_profit := s.total_profit
    profit_history := s.profit_history
    last_updated := now }

/-- Embedding of `ReinvestmentModule.load_state` (reinvestment.py 44-59) with the file
read abstracted: `none` models a missing state file (state left as
initialised), `some` a parsed state dictionary whose fields replace the
capital, total profit and history. -/
def load_state (s : ReinvState) (stored : Option SavedState) : ReinvState :=
  match stored with
  | none => s
  | some st =>
    { s with
      current_capital := st.current_capital
      total_profit := st.total_profit
      profit_history := st.profit_history }

/-- An opportunity as consumed by
`ReinvestmentModule.get_allocation_for_opportunity` (reinvestment.py
137-171): the three keys it reads, all accessed with `.get` or an `in`
test, hence all optional. -/
structure AllocOpp where
  ai_confidence : Option ℚ
  estimated_profit_usd : Option ℚ
  liquidity : Option ℚ
  deriving DecidableEq, Repr

/-- Rounding to two decimal places, modelling Python's `round(x, 2)`
(half-integer ties, which Python resolves to even, are immaterial to the
claims proved below since both compared definitions share this function). -/
def round2 (x : ℚ) : ℚ := round (x * 100) / 100

/-- Embedding of `ReinvestmentModule.get_allocation_for_opportunity` (reinvestment.py
137-171): percentage-of-capital base capped by the reserve requirement,
scaled by confidence (default 0.5) and a profit factor, capped by pool
impact when liquidity is known, rounded to 2 decimals. -/
def get_allocation_for_opportunity (s : ReinvState) (opportunity : AllocOpp) : ℚ :=
  let base_allocation := s.current_capital * (s.max_allocation_per_trade / 100)
  let available_capital := s.current_capital * (1 - s.min_reserve_percent / 100)
  let base_allocation2 := pymin base_allocation available_capital
  let confidence_factor := opportunity.ai_confidence.getD (1/2)
  let profit_factor := pymin 5 (opportunity.estimated_profit_usd.getD 0 / 100)
  let allocation := base_allocation2 * confidence_factor * (1 + profit_factor / 10)
  let allocation2 :=
    match opportunity.liquidity with
    | some liq => pymin allocation (liq * (s.max_pool_impact_percent / 100))
    | none => allocation
  round2 allocation2

/-- Modelled from the claim text of C8 (spec section 4.5,
`getAllocationForOpportunity`): `round(min(a, liquidity × maxPoolImpact/100), 2)`
when liquidity is known and `round(a, 2)` otherwise, where
`a = min(currentCapital × maxAllocationPerTradePercent/100,
currentCapital × (1 − minReservePercent/100)) × confidence ×
(1 + min(5, estimatedProfitUsd/100)/10)` and confidence defaults to 0.5. -/
def allocationSpec (s : ReinvState) (confidence : Option ℚ)
    (estimated_profit_usd : ℚ) (liquidity : Option ℚ) : ℚ :=
  let a := pymin (s.current_capital * (s.max_allocation_per_trade / 100))
      (s.current_capital * (1 - s.min_reserve_percent / 100))
    * confidence.getD (1/2) * (1 + pymin 5 (estimated_profit_usd / 100) / 10)
  match liquidity with
  | some liq => round2 (pymin a (liq * (s.max_pool_impact_percent / 100)))
  | none => round2 a

/-- The result dictionary returned by the execution engine to
`execute_opportunity` (flash_loan.py 372-403). -/
structure ExecutionResult where
  success : Bool
  profit_usd : ℚ
  deriving DecidableEq, Repr

/-- The outcome-processing tail of `FlashLoanOrchestrator.execute_opportunity`
(flash_loan.py 372-403): on success, alert with priority "medium" when the
realized profit is at least twice the minimum profit threshold and feed the
profit to `update_capital`; on failure, alert with priority "high" when the
pre-execution estimated profit is at least five times the threshold.  The
returned pair is the updated reinvestment state and the priority of the
alert sent, if any. -/
def execute_opportunity_outcome (threshold now : ℚ) (s : ReinvState)
    (opportunity : Opp) (execution_result : ExecutionResult) :
    ReinvState × Option String :=
  if execution_result.success then
    (update_capital s execution_result.profit_usd now,
     if threshold * 2 ≤ execution_result.profit_usd then some ("medium") else none)
  else
    (s, if threshold * 5 ≤ opportunity.estimated_profit_usd then some ("high") else none)

/-- The BSC quote of DEX A in the specification's worked scenario
(spec section 8): ETH-USDT at price 1800 with 2,000,000 liquidity. -/
def qA : Quote :=
  { token_pair := "ETH-USDT", dex_name := "DEX_A", network := "BSC"
    price := 1800, liquidity := some 2000000 }

/-- The BSC quote of DEX B in the specification's worked scenario
(spec section 8): ETH-USDT at price 1830 with 1,500,000 liquidity. -/
def qB : Quote :=
  { token_pair := "ETH-USDT", dex_name := "DEX_B", network := "BSC"
    price := 1830, liquidity := some 1500000 }

/-- The single opportunity the detector emits on `[qA, qB]` (computed from
the embedded code): loan 15000, gross 250, AAVE fee 13.5, DEX fees 90, gas
0.75, net profit 145.75; the price difference is 30/1800 × 100 = 5/3 %. -/
def oppAB : Opp :=
  { token_pair := "ETH-USDT", buy_dex := "DEX_A", sell_dex := "DEX_B"
    buy_price := 1800, sell_price := 1830, price_diff_pct := 5/3
    estimated_profit_usd := 583/4, network := "BSC", timestamp := 0
    ai_confidence := none, loan_amount := none }


/-- The helper `pymin` is Mathlib's `min` on `ℚ`. -/
theorem pymin_eq (a b : ℚ) : pymin a b = min a b := (min_def a b).symm

/-- The helper `pymax` is Mathlib's `max` on `ℚ`. -/
theorem pymax_eq (a b : ℚ) : pymax a b = max a b := by
  rw [pymax, max_def]
  rcases lt_trichotomy a b with h | rfl | h
  · rw [if_neg (not_le.mpr h), if_pos h.le]
  · simp
  · rw [if_pos h.le, if_neg (not_le.mpr h)]

/-- The helper `pyabs` is Mathlib's absolute value on `ℚ`. -/
theorem pyabs_eq (a : ℚ) : pyabs a = |a| := by
  rw [pyabs]
  split
  · rw [abs_of_neg (by assumption)]
  · rw [abs_of_nonneg (not_lt.mp (by assumption))]

/-- The clamp `max(m, min(x, M))` lies in `[m, M]` when `m ≤ M`. -/
theorem clamp_bounds (m M x : ℚ) (h : m ≤ M) :
    m ≤ pymax m (pymin x M) ∧ pymax m (pymin x M) ≤ M := by
  rw [pymax_eq, pymin_eq]
  exact ⟨le_max_left _ _, max_le h (min_le_right _ _)⟩

/-- Claim C6: `update_capital` with a non-positive profit leaves the whole
capital state unchanged (reinvestment.py 86-87 returns before any
mutation). -/
theorem c6_update_capital_noop (s : ReinvState) (p now : ℚ) (h : p ≤ 0) :
    update_capital s p now = s := by
  unfold update_capital
  rw [if_pos h]

/-- Witness for C6 at profit 0 on the default state. -/
theorem c6_update_capital_noop_witness :
    ((0:ℚ) ≤ 0) ∧ update_capital defaultReinvState 0 0 = defaultReinvState :=
  ⟨le_rfl, c6_update_capital_noop defaultReinvState 0 0 le_rfl⟩

/-- Claim C9: loading the saved dictionary restores the capital, the total
profit and the profit history that were saved. -/
theorem c9_save_load_roundtrip (s target : ReinvState) (now : ℚ) :
    (load_state target (some (save_state s now))).current_capital = s.current_capital ∧
    (load_state target (some (save_state s now))).total_profit = s.total_profit ∧
    (load_state target (some (save_state s now))).profit_history = s.profit_history :=
  ⟨rfl, rfl, rfl⟩

/-- Claim C8: the code's `get_allocation_for_opportunity` computes exactly
the allocation formula stated in the specification (`allocationSpec`),
whenever the opportunity carries its estimated profit. -/
theorem c8_allocation_refines_spec (s : ReinvState) (opportunity : AllocOpp)
    (p : ℚ) (h : opportunity.estimated_profit_usd = some p) :
    get_allocation_for_opportunity s opportunity
      = allocationSpec s opportunity.ai_confidence p opportunity.liquidity := by
  obtain ⟨conf, est, liq⟩ := opportunity
  cases h
  cases liq <;> rfl

/-- Witness for C8 on the default state and a bare opportunity with
estimated profit 100. -/
theorem c8_allocation_refines_spec_witness :
    (({ ai_confidence := none, estimated_profit_usd := some 100, liquidity := none }
        : AllocOpp).estimated_profit_usd = some 100) ∧
    get_allocation_for_opportunity defaultReinvState
        { ai_confidence := none, estimated_profit_usd := some 100, liquidity := none }
      = allocationSpec defaultReinvState none 100 none :=
  ⟨rfl, c8_allocation_refines_spec defaultReinvState
    { ai_confidence := none, estimated_profit_usd := some 100, liquidity := none } 100 rfl⟩

/-- Claim C10: without a `liquidity` key on either side,
`determine_loan_amount` returns the maximum loan, and an opportunity
dispatched without a precomputed `loan_amount` key is executed with exactly
that maximum. -/
theorem c10_default_loan_amount (cfg : Config) (opportunity : Opp)
    (hml : cfg.min_loan ≤ cfg.max_loan) (hla : opportunity.loan_amount = none) :
    determine_loan_amount cfg none none = cfg.max_loan ∧
    resolveLoanAmount cfg opportunity = cfg.max_loan := by
  have h1 : determine_loan_amount cfg none none = cfg.max_loan := by
    show pymax cfg.min_loan cfg.max_loan = cfg.max_loan
    rw [pymax_eq]
    exact max_eq_right hml
  refine ⟨h1, ?_⟩
  unfold resolveLoanAmount
  rw [hla]
  exact h1

/-- Claim C1 (amended): the loan is clamped to `[min_loan, max_loan]`
whenever `min_loan ≤ max_loan`, and it respects the 1%-of-liquidity cap
whenever that cap is at least `min_loan`. -/
theorem c1_loan_bounds_amended (cfg : Config) (buyLiq sellLiq : Option ℚ)
    (h : cfg.min_loan ≤ cfg.max_loan) :
    (cfg.min_loan ≤ determine_loan_amount cfg buyLiq sellLiq ∧
     determine_loan_amount cfg buyLiq sellLiq ≤ cfg.max_loan) ∧
    (∀ b s, buyLiq = some b → sellLiq = some s →
      cfg.min_loan ≤ pymin b s * (1/100) →
      determine_loan_amount cfg buyLiq sellLiq ≤ pymin b s * (1/100)) := by
  constructor
  · cases buyLiq with
    | none =>
      cases sellLiq with
      | none =>
        show cfg.min_loan ≤ pymax cfg.min_loan cfg.max_loan ∧
          pymax cfg.min_loan cfg.max_loan ≤ cfg.max_loan
        rw [pymax_eq]
        exact ⟨le_max_left _ _, max_le h le_rfl⟩
      | some s => exact clamp_bounds _ _ _ h
    | some b =>
      cases sellLiq with
      | none => exact clamp_bounds _ _ _ h
      | some s => exact clamp_bounds _ _ _ h
  · intro b s hb hs hcap
    subst hb
    subst hs
    show pymax cfg.min_loan (pymin (pymin b s * (1/100)) cfg.max_loan) ≤ pymin b s * (1/100)
    rw [pymax_eq, pymin_eq (pymin b s * (1/100))]
    exact max_le hcap (min_le_left _ _)


/-- Claim C7: after an execution outcome, a "high" alert is emitted exactly
when the execution failed and the pre-execution estimated profit was at
least five times the minimum profit threshold, and a "medium" alert exactly
when it succeeded with realized profit at least twice the threshold. -/
theorem c7_alert_policy (threshold now : ℚ) (s : ReinvState) (opportunity : Opp)
    (execution_result : ExecutionResult) :
    ((execute_opportunity_outcome threshold now s opportunity execution_result).2 = some ("high") ↔
      execution_result.success = false ∧ threshold * 5 ≤ opportunity.estimated_profit_usd) ∧
    ((execute_opportunity_outcome threshold now s opportunity execution_result).2 = some ("medium") ↔
      execution_result.success = true ∧ threshold * 2 ≤ execution_result.profit_usd) := by
  obtain ⟨success, profit⟩ := execution_result
  cases success
  · unfold execute_opportunity_outcome
    simp only [Bool.false_eq_true, if_false]
    constructor
    · split <;> simp_all
    · split <;> simp_all
  · unfold execute_opportunity_outcome
    simp only [if_true]
    constructor
    · split <;> simp_all
    · split <;> simp_all

/-- Trimming the history never touches the per-trade allocation. -/
theorem trimHistory_alloc (t : ReinvState) :
    (trimHistory t).max_allocation_per_trade = t.max_allocation_per_trade := by
  unfold trimHistory
  split <;> rfl

/-- Trimming the history never touches the increase threshold. -/
theorem trimHistory_threshold (t : ReinvState) :
    (trimHistory t).allocation_increase_threshold = t.allocation_increase_threshold := by
  unfold trimHistory
  split <;> rfl

/-- The call `adjust_allocations` keeps the per-trade allocation inside `[5, 50]`
and never touches the increase threshold. -/
theorem adjust_allocations_band (t : ReinvState)
    (hthr : 0 ≤ t.allocation_increase_threshold)
    (h5 : 5 ≤ t.max_allocation_per_trade) (h50 : t.max_allocation_per_trade ≤ 50) :
    0 ≤ (adjust_allocations t).allocation_increase_threshold ∧
    5 ≤ (adjust_allocations t).max_allocation_per_trade ∧
    (adjust_allocations t).max_allocation_per_trade ≤ 50 := by
  unfold adjust_allocations
  split_ifs with h1 h2
  · refine ⟨hthr, ?_, ?_⟩
    · show 5 ≤ pymin 50 (t.max_allocation_per_trade * (1 + roiPercent t / 100))
      rw [pymin_eq]
      refine le_min (by norm_num) ?_
      have hroi : 0 ≤ roiPercent t := le_trans hthr h1.le
      have h0a : (0:ℚ) ≤ t.max_allocation_per_trade := le_trans (by norm_num) h5
      have hmul : t.max_allocation_per_trade ≤
          t.max_allocation_per_trade * (1 + roiPercent t / 100) :=
        le_mul_of_one_le_right h0a (by linarith)
      linarith
    · show pymin 50 (t.max_allocation_per_trade * (1 + roiPercent t / 100)) ≤ 50
      rw [pymin_eq]
      exact min_le_left _ _
  · refine ⟨hthr, ?_, ?_⟩
    · show 5 ≤ pymax 5 (t.max_allocation_per_trade * (8/10))
      rw [pymax_eq]
      exact le_max_left _ _
    · show pymax 5 (t.max_allocation_per_trade * (8/10)) ≤ 50
      rw [pymax_eq]
      exact max_le (by norm_num) (by linarith)
  · exact ⟨hthr, h5, h50⟩

/-- One `update_capital` call keeps the allocation band `[5, 50]` and the
sign of the increase threshold. -/
theorem update_capital_band (s : ReinvState) (p now : ℚ)
    (hthr : 0 ≤ s.allocation_increase_threshold)
    (h5 : 5 ≤ s.max_allocation_per_trade) (h50 : s.max_allocation_per_trade ≤ 50) :
    0 ≤ (update_capital s p now).allocation_increase_threshold ∧
    5 ≤ (update_capital s p now).max_allocation_per_trade ∧
    (update_capital s p now).max_allocation_per_trade ≤ 50 := by
  unfold update_capital
  split
  · exact ⟨hthr, h5, h50⟩
  · refine adjust_allocations_band _ ?_ ?_ ?_
    · rw [trimHistory_threshold]
      exact hthr
    · rw [trimHistory_alloc]
      exact h5
    · rw [trimHistory_alloc]
      exact h50

/-- Claim C5: over any sequence of `update_capital` calls from a state whose
per-trade allocation lies in `[5, 50]` (with a non-negative configured
increase threshold, the default being 5), the per-trade allocation stays in
`[5, 50]`. -/
theorem c5_allocation_band_invariant (s : ReinvState) (updates : List (ℚ × ℚ))
    (hthr : 0 ≤ s.allocation_increase_threshold)
    (h5 : 5 ≤ s.max_allocation_per_trade) (h50 : s.max_allocation_per_trade ≤ 50) :
    5 ≤ (updates.foldl (fun t u => update_capital t u.1 u.2) s).max_allocation_per_trade ∧
    (updates.foldl (fun t u => update_capital t u.1 u.2) s).max_allocation_per_trade ≤ 50 := by
  have main : ∀ (l : List (ℚ × ℚ)) (t : ReinvState),
      0 ≤ t.allocation_increase_threshold →
      5 ≤ t.max_allocation_per_trade → t.max_allocation_per_trade ≤ 50 →
      0 ≤ (l.foldl (fun t u => update_capital t u.1 u.2) t).allocation_increase_threshold ∧
      5 ≤ (l.foldl (fun t u => update_capital t u.1 u.2) t).max_allocation_per_trade ∧
      (l.foldl (fun t u => update_capital t u.1 u.2) t).max_allocation_per_trade ≤ 50 := by
    intro l
    induction l with
    | nil => intro t h1 h2 h3; exact ⟨h1, h2, h3⟩
    | cons u rest ih =>
      intro t h1 h2 h3
      have hstep := update_capital_band t u.1 u.2 h1 h2 h3
      exact ih _ hstep.1 hstep.2.1 hstep.2.2
  exact ⟨(main updates s hthr h5 h50).2.1, (main updates s hthr h5 h50).2.2⟩

/-- The helper `pymin` written with a strict comparison. -/
theorem pymin_lt_form (a b : ℚ) : pymin a b = if a < b then a else b := by
  rw [pymin]
  rcases lt_trichotomy a b with h | rfl | h
  · rw [if_pos h.le, if_pos h]
  · simp
  · rw [if_neg (not_le.mpr h), if_neg (lt_asymm h)]

/-- The helper `pymax` written with a strict comparison. -/
theorem pymax_lt_form (a b : ℚ) : pymax a b = if a < b then b else a := by
  rw [pymax]
  rcases lt_trichotomy a b with h | rfl | h
  · rw [if_neg (not_le.mpr h), if_pos h]
  · simp
  · rw [if_pos h.le, if_neg (lt_asymm h)]

/-- Anything surviving the confidence filter was in the input list. -/
theorem mem_confidenceFiltered {cfg : Config} {viable : List Opp} {o : Opp}
    (h : o ∈ confidenceFiltered cfg viable) : o ∈ viable := by
  match viable with
  | [] => simp [confidenceFiltered] at h
  | op0 :: rest =>
    rw [confidenceFiltered] at h
    split at h
    · exact List.mem_of_mem_filter h
    · exact h

/-- The comparison `profitDescLe` is transitive. -/
theorem profitDescLe_trans (a b c : Opp) :
    profitDescLe a b → profitDescLe b c → profitDescLe a c := by
  unfold profitDescLe
  intro hab hbc
  exact decide_eq_true (le_trans (of_decide_eq_true hbc) (of_decide_eq_true hab))

/-- The comparison `profitDescLe` is total. -/
theorem profitDescLe_total (a b : Opp) : profitDescLe a b || profitDescLe b a := by
  rcases le_total b.estimated_profit_usd a.estimated_profit_usd with h | h <;>
    simp [profitDescLe, h]

/-- Claim C2: every dispatched opportunity meets the minimum profit
threshold, the dispatched list is sorted by descending estimated profit,
and at most five opportunities are dispatched per cycle. -/
theorem c2_filter_rank_dispatch (cfg : Config) (opportunities : List Opp) :
    (∀ o ∈ dispatchedOpportunities cfg opportunities,
        cfg.minimum_profit_threshold ≤ o.estimated_profit_usd) ∧
    (dispatchedOpportunities cfg opportunities).Pairwise
        (fun a b => b.estimated_profit_usd ≤ a.estimated_profit_usd) ∧
    (dispatchedOpportunities cfg opportunities).length ≤ 5 := by
  refine ⟨?_, ?_, ?_⟩
  · intro o ho
    have h1 : o ∈ filter_opportunities cfg opportunities := List.mem_of_mem_take ho
    rw [filter_opportunities] at h1
    have h2 : o ∈ confidenceFiltered cfg (viableOpportunities cfg opportunities) :=
      (List.mergeSort_perm _ _).mem_iff.mp h1
    have h3 : o ∈ viableOpportunities cfg opportunities := mem_confidenceFiltered h2
    have h4 := List.mem_filter.mp h3
    exact of_decide_eq_true h4.2
  · have hs : (filter_opportunities cfg opportunities).Pairwise
        (fun a b => profitDescLe a b) :=
      List.sorted_mergeSort profitDescLe_trans profitDescLe_total _
    have hs2 : (filter_opportunities cfg opportunities).Pairwise
        (fun a b => b.estimated_profit_usd ≤ a.estimated_profit_usd) :=
      hs.imp (fun h => of_decide_eq_true h)
    exact hs2.sublist (List.take_sublist _ _)
  · exact List.length_take_le _ _

/-- Unpacking a successful `mkOpp`: both prices are positive, the estimated
profit is positive, and the emitted fields name the cheaper quote as the
buy side and the dearer quote as the sell side. -/
theorem mkOpp_some {cfg : Config} {now : ℚ} {tp : String} {src tgt : Quote} {o : Opp}
    (h : mkOpp cfg now tp src tgt = some o) :
    0 < src.price ∧ 0 < tgt.price ∧ 0 < o.estimated_profit_usd ∧
    o.buy_dex = (if src.price < tgt.price then src else tgt).dex_name ∧
    o.sell_dex = (if src.price < tgt.price then tgt else src).dex_name ∧
    o.buy_price = (if src.price < tgt.price then src else tgt).price ∧
    o.sell_price = (if src.price < tgt.price then tgt else src).price := by
  simp only [mkOpp] at h
  split at h
  · simp at h
  · rename_i hpos
    push_neg at hpos
    split at h
    · rename_i hlt
      simp only [if_pos hlt]
      split at h
      · rename_i hprofit
        injection h with h2
        subst h2
        refine ⟨hpos.1, hpos.2, hprofit, rfl, rfl, ?_, ?_⟩
        · rw [pymin_lt_form, if_pos hlt]
        · rw [pymax_lt_form, if_pos hlt]
      · simp at h
    · rename_i hlt
      simp only [if_neg hlt]
      split at h
      · rename_i hprofit
        injection h with h2
        subst h2
        refine ⟨hpos.1, hpos.2, hprofit, rfl, rfl, ?_, ?_⟩
        · rw [pymin_lt_form, if_neg hlt]
        · rw [pymax_lt_form, if_neg hlt]
      · simp at h

/-- Every opportunity produced by the pairwise comparison loop comes from a
successful `mkOpp` on two quotes of the compared list. -/
theorem mem_comparePairs {cfg : Config} {now : ℚ} {tp : String} :
    ∀ {qs : List Quote} {o : Opp}, o ∈ comparePairs cfg now tp qs →
      ∃ src tgt, src ∈ qs ∧ tgt ∈ qs ∧ mkOpp cfg now tp src tgt = some o := by
  intro qs
  induction qs with
  | nil => intro o ho; simp [comparePairs] at ho
  | cons q rest ih =>
    intro o ho
    rw [comparePairs] at ho
    rcases List.mem_append.mp ho with h | h
    · obtain ⟨tgt, htgt, hmk⟩ := List.mem_filterMap.mp h
      exact ⟨q, tgt, List.mem_cons_self _ _, List.mem_cons_of_mem _ htgt, hmk⟩
    · obtain ⟨src, tgt, hs, ht, hmk⟩ := ih h
      exact ⟨src, tgt, List.mem_cons_of_mem _ hs, List.mem_cons_of_mem _ ht, hmk⟩

/-- Quotes inside an entry of `insertQuote acc q` were in `acc` or are `q`. -/
theorem mem_insertQuote : ∀ (acc : List (String × List Quote)) (q x : Quote)
    (k : String) (qs : List Quote),
    (k, qs) ∈ insertQuote acc q → x ∈ qs →
    (∃ k0 qs0, (k0, qs0) ∈ acc ∧ x ∈ qs0) ∨ x = q := by
  intro acc
  induction acc with
  | nil =>
    intro q x k qs hmem hx
    simp only [insertQuote, List.mem_singleton, Prod.mk.injEq] at hmem
    right
    rw [hmem.2] at hx
    exact List.mem_singleton.mp hx
  | cons hd tl ih =>
    intro q x k qs hmem hx
    obtain ⟨k0, qs0⟩ := hd
    rw [insertQuote] at hmem
    split at hmem
    · rcases List.mem_cons.mp hmem with heq | htl
      · obtain ⟨hk, hqs⟩ := Prod.mk.injEq .. |>.mp heq
        rw [hqs] at hx
        rcases List.mem_append.mp hx with hx0 | hxq
        · exact Or.inl ⟨k0, qs0, List.mem_cons_self _ _, hx0⟩
        · exact Or.inr (List.mem_singleton.mp hxq)
      · exact Or.inl ⟨k, qs, List.mem_cons_of_mem _ htl, hx⟩
    · rcases List.mem_cons.mp hmem with heq | htl
      · obtain ⟨hk, hqs⟩ := Prod.mk.injEq .. |>.mp heq
        rw [hqs] at hx
        exact Or.inl ⟨k0, qs0, List.mem_cons_self _ _, hx⟩
      · rcases ih q x k qs htl hx with h | h
        · obtain ⟨k1, qs1, hmem1, hx1⟩ := h
          exact Or.inl ⟨k1, qs1, List.mem_cons_of_mem _ hmem1, hx1⟩
        · exact Or.inr h

/-- Quotes inside the grouping dictionary built by folding `insertQuote`
come from the accumulator or from the folded data. -/
theorem mem_groupByPair_aux : ∀ (data : List Quote)
    (acc : List (String × List Quote)) (k : String) (qs : List Quote) (x : Quote),
    (k, qs) ∈ data.foldl insertQuote acc → x ∈ qs →
    (∃ k0 qs0, (k0, qs0) ∈ acc ∧ x ∈ qs0) ∨ x ∈ data := by
  intro data
  induction data with
  | nil =>
    intro acc k qs x hmem hx
    exact Or.inl ⟨k, qs, hmem, hx⟩
  | cons d ds ih =>
    intro acc k qs x hmem hx
    rw [List.foldl_cons] at hmem
    rcases ih (insertQuote acc d) k qs x hmem hx with h | h
    · obtain ⟨k0, qs0, h0, hx0⟩ := h
      rcases mem_insertQuote acc d x k0 qs0 h0 hx0 with h2 | h2
      · obtain ⟨k1, qs1, h1, hx1⟩ := h2
        exact Or.inl ⟨k1, qs1, h1, hx1⟩
      · right
        rw [h2]
        exact List.mem_cons_self _ _
    · exact Or.inr (List.mem_cons_of_mem _ h)

/-- Every quote stored in a group of `groupByPair data` is a quote of
`data`. -/
theorem mem_groupByPair {data : List Quote} {k : String} {qs : List Quote}
    {x : Quote} (hmem : (k, qs) ∈ groupByPair data) (hx : x ∈ qs) : x ∈ data := by
  rcases mem_groupByPair_aux data [] k qs x hmem hx with h | h
  · obtain ⟨_, _, h0, _⟩ := h
    simp at h0
  · exact h

/-- Claim C4: every emitted opportunity has strictly positive estimated
profit, and it references two quotes of the snapshot, both of strictly
positive price, as its buy and sell sides. -/
theorem c4_detector_soundness (cfg : Config) (now : ℚ) (price_data : List Quote)
    (o : Opp) (ho : o ∈ identify_arbitrage_opportunities cfg now price_data) :
    0 < o.estimated_profit_usd ∧
    ∃ qb qs, qb ∈ price_data ∧ qs ∈ price_data ∧ 0 < qb.price ∧ 0 < qs.price ∧
      o.buy_dex = qb.dex_name ∧ o.sell_dex = qs.dex_name ∧
      o.buy_price = qb.price ∧ o.sell_price = qs.price := by
  unfold identify_arbitrage_opportunities at ho
  obtain ⟨g, hg, hog⟩ := List.mem_flatMap.mp ho
  by_cases hlen : g.2.length < 2
  · rw [if_pos hlen] at hog
    simp at hog
  · rw [if_neg hlen] at hog
    obtain ⟨src, tgt, hs, ht, hmk⟩ := mem_comparePairs hog
    obtain ⟨hps, hpt, hprofit, hbd, hsd, hbp, hsp⟩ := mkOpp_some hmk
    have hsrc : src ∈ price_data := mem_groupByPair hg hs
    have htgt : tgt ∈ price_data := mem_groupByPair hg ht
    refine ⟨hprofit, ?_⟩
    by_cases hlt : src.price < tgt.price
    · rw [if_pos hlt] at hbd hsd hbp hsp
      exact ⟨src, tgt, hsrc, htgt, hps, hpt, hbd, hsd, hbp, hsp⟩
    · rw [if_neg hlt] at hbd hsd hbp hsp
      exact ⟨tgt, src, htgt, hsrc, hpt, hps, hbd, hsd, hbp, hsp⟩

section

attribute [local semireducible] Rat.add Rat.sub Rat.mul Rat.inv Rat.ofScientific

/-- Claim C1 counterexample: with 10,000 USD of liquidity on both sides the
1% cap is 100 USD, but `determine_loan_amount` returns the 1000 USD
minimum, exceeding the cap. -/
theorem c1_liquidity_cap_counterexample :
    determine_loan_amount defaultConfig (some 10000) (some 10000) = 1000 ∧
    ¬ determine_loan_amount defaultConfig (some 10000) (some 10000) ≤
        pymin 10000 10000 * (1/100) := by decide

/-- Witness for C1 at the scenario liquidities 2,000,000 and 1,500,000. -/
theorem c1_loan_bounds_witness :
    (defaultConfig.min_loan ≤ defaultConfig.max_loan) ∧
    (defaultConfig.min_loan ≤
        determine_loan_amount defaultConfig (some 2000000) (some 1500000) ∧
      determine_loan_amount defaultConfig (some 2000000) (some 1500000) ≤
        defaultConfig.max_loan) ∧
    determine_loan_amount defaultConfig (some 2000000) (some 1500000) ≤
      pymin 2000000 1500000 * (1/100) :=
  ⟨by decide,
   (c1_loan_bounds_amended defaultConfig (some 2000000) (some 1500000) (by decide)).1,
   (c1_loan_bounds_amended defaultConfig (some 2000000) (some 1500000) (by decide)).2
     2000000 1500000 rfl rfl (by decide)⟩

/-- Claim C3 counterexample: on the scenario quotes in the stated order
(DEX A first), the single emitted opportunity has
`price_diff_pct = 30/1800 × 100 = 5/3 ≈ 1.67`, which is not within 0.01 of
the claimed 1.64. -/
theorem c3_scenario_counterexample :
    (identify_arbitrage_opportunities defaultConfig 0 [qA, qB]).map Opp.price_diff_pct
      = [5/3] ∧
    ¬ pyabs (5/3 - 164/100) ≤ 1/100 := by decide

/-- Claim C3 (amended): the scenario yields exactly one opportunity, buying
on DEX A and selling on DEX B, with loan amount 15000,
`price_diff_pct = 5/3 ≈ 1.67`, and strictly positive estimated profit. -/
theorem c3_scenario_amended :
    identify_arbitrage_opportunities defaultConfig 0 [qA, qB] = [oppAB] ∧
    oppAB.buy_dex = "DEX_A" ∧ oppAB.sell_dex = "DEX_B" ∧
    determine_loan_amount defaultConfig qA.liquidity qB.liquidity = 15000 ∧
    oppAB.price_diff_pct = 5/3 ∧
    pyabs (oppAB.price_diff_pct - 167/100) ≤ 1/100 ∧
    0 < oppAB.estimated_profit_usd := by decide

/-- Witness for C4 on the scenario snapshot. -/
theorem c4_detector_soundness_witness :
    (oppAB ∈ identify_arbitrage_opportunities defaultConfig 0 [qA, qB]) ∧
    (0 < oppAB.estimated_profit_usd ∧
     ∃ qb qs, qb ∈ [qA, qB] ∧ qs ∈ [qA, qB] ∧ 0 < qb.price ∧ 0 < qs.price ∧
       oppAB.buy_dex = qb.dex_name ∧ oppAB.sell_dex = qs.dex_name ∧
       oppAB.buy_price = qb.price ∧ oppAB.sell_price = qs.price) :=
  ⟨by decide, c4_detector_soundness defaultConfig 0 [qA, qB] oppAB (by decide)⟩

/-- Witness for C2 on a one-element opportunity list. -/
theorem c2_filter_rank_dispatch_witness :
    (oppAB ∈ dispatchedOpportunities defaultConfig [oppAB]) ∧
    defaultConfig.minimum_profit_threshold ≤ oppAB.estimated_profit_usd := by
  have h1 : oppAB ∈ confidenceFiltered defaultConfig
      (viableOpportunities defaultConfig [oppAB]) := by decide
  have h2 : oppAB ∈ filter_opportunities defaultConfig [oppAB] :=
    (List.mergeSort_perm _ profitDescLe).mem_iff.mpr h1
  have hlen : (filter_opportunities defaultConfig [oppAB]).length ≤ 5 := by
    rw [filter_opportunities, List.length_mergeSort]
    decide
  have hmem : oppAB ∈ dispatchedOpportunities defaultConfig [oppAB] := by
    rw [dispatchedOpportunities, List.take_of_length_le hlen]
    exact h2
  exact ⟨hmem, (c2_filter_rank_dispatch defaultConfig [oppAB]).1 oppAB hmem⟩

/-- Witness for C5: a single 100 USD profit update on the default state. -/
theorem c5_allocation_band_witness :
    (0 ≤ defaultReinvState.allocation_increase_threshold ∧
     5 ≤ defaultReinvState.max_allocation_per_trade ∧
     defaultReinvState.max_allocation_per_trade ≤ 50) ∧
    (5 ≤ ([((100:ℚ), (0:ℚ))].foldl (fun t u => update_capital t u.1 u.2)
        defaultReinvState).max_allocation_per_trade ∧
     ([((100:ℚ), (0:ℚ))].foldl (fun t u => update_capital t u.1 u.2)
        defaultReinvState).max_allocation_per_trade ≤ 50) :=
  ⟨⟨by decide, by decide, by decide⟩,
   c5_allocation_band_invariant defaultReinvState [(100, 0)]
     (by decide) (by decide) (by decide)⟩

/-- Witness for C10: the default configuration and the scenario
opportunity, which carries no `loan_amount` key; the resolved amount is the
50000 USD maximum. -/
theorem c10_default_loan_amount_witness :
    (defaultConfig.min_loan ≤ defaultConfig.max_loan ∧ oppAB.loan_amount = none) ∧
    (determine_loan_amount defaultConfig none none = defaultConfig.max_loan ∧
     resolveLoanAmount defaultConfig oppAB = defaultConfig.max_loan) :=
  ⟨⟨by decide, rfl⟩, c10_default_loan_amount defaultConfig oppAB (by decide) rfl⟩

end

end ShadowLynx
